import Mathlib

/-!
Verification of the godot-bevy signal bridge
(`src/godot-bevy/src/plugins/signals.rs`).

The bridge forwards Godot engine signals into Bevy's ECS event queue.
We shallowly embed the Rust module: the engine's dynamically typed
`Variant` is modelled by the three operations the code performs on it
(`get_type`, `stringify`, and the fallible downcast to an object id);
the mpsc channel is a FIFO queue with a flag recording whether the
receiver end has been dropped; the installed callback closure becomes
an explicit function from the captured data and the argument list to
the new channel state plus the value returned to the engine.
-/

namespace GodotBevySignals

/-- The engine's runtime kind of a `Variant`.  The first eight
constructors are the kinds the translator's table names explicitly;
the remaining constructors stand for the other kinds of Godot's
`VariantType` enumeration, all of which fall into the wildcard arm of
the `match` in `variant_to_signal_argument`. -/
inductive VariantType where
  | NIL
  | BOOL
  | INT
  | FLOAT
  | STRING
  | VECTOR2
  | VECTOR3
  | OBJECT
  | VECTOR2I
  | VECTOR3I
  | VECTOR4
  | COLOR
  | RECT2
  | TRANSFORM2D
  | DICTIONARY
  | ARRAY
  | STRING_NAME
  | NODE_PATH
  | RID
  | SIGNAL
  deriving DecidableEq, Repr

/-- Stable integer identifier of an engine object (`godot::obj::InstanceId`). -/
abbrev InstanceId := Nat

/-- A Godot `Variant`, modelled by the three observations the bridge
makes of it: its runtime kind (`Variant::get_type`), the engine's
canonical stringification (`Variant::stringify`), and the result of
`variant.try_to::<Gd<Object>>().ok().map(|obj| obj.instance_id())`,
i.e. the instance id when the downcast to an object succeeds. -/
structure Variant where
  get_type : VariantType
  stringify : String
  tryToObjectId : Option InstanceId
  deriving DecidableEq, Repr

/-- `Variant::nil()`, the value the universal callback returns to the
engine.  Godot stringifies the nil variant as `<null>`. -/
def Variant.nil : Variant :=
  { get_type := VariantType.NIL, stringify := "<null>", tryToObjectId := none }

/-- Modelled from the spec: `GodotNodeHandle` lives in `crate::interop`,
which is not part of the sources; the spec describes it as "an opaque,
cheaply clonable reference to a host-engine node identified by a
process-stable instance id". -/
structure GodotNodeHandle where
  instance_id : InstanceId
  deriving DecidableEq, Repr

/-- Modelled from the spec: the `NodeHandle` is "created by the
connector from an id" (`GodotNodeHandle::from_instance_id` in
`crate::interop`, not part of the sources). -/
def GodotNodeHandle.from_instance_id (id : InstanceId) : GodotNodeHandle :=
  { instance_id := id }

/-- `GodotSignalArgument` (signals.rs lines 29-34): a translated single
argument of a signal invocation. -/
structure GodotSignalArgument where
  type_name : String
  value : String
  instance_id : Option InstanceId
  deriving DecidableEq, Repr

/-- Bevy `Entity`, an ECS-side opaque identifier. -/
abbrev Entity := Nat

/-- `GodotSignalTarget` (signals.rs lines 46-50): the routing hint of a
signal, either a node or an ECS entity. -/
inductive GodotSignalTarget where
  | Node (handle : GodotNodeHandle)
  | Entity (entity : GodotBevySignals.Entity)
  deriving DecidableEq, Repr

/-- `GodotSignal` (signals.rs lines 36-42): the ECS event record built
for each signal invocation. -/
structure GodotSignal where
  name : String
  origin : GodotNodeHandle
  target : GodotSignalTarget
  arguments : List GodotSignalArgument
  deriving DecidableEq, Repr

/-- The `std::sync::mpsc` channel of `GodotSignal` records: an
unbounded FIFO queue plus a flag recording whether the receiver end
has been dropped. -/
structure Channel where
  queue : List GodotSignal
  receiverDropped : Bool
  deriving DecidableEq, Repr

/-- `Sender::send`: appends the record to the FIFO and reports success,
unless the receiver has been dropped, in which case the channel is
unchanged and the send reports failure.  Never blocks, never panics. -/
def Channel.send (ch : Channel) (r : GodotSignal) : Channel × Bool :=
  if ch.receiverDropped then (ch, false)
  else ({ ch with queue := ch.queue ++ [r] }, true)

/-- `Receiver::try_iter` as consumed by `write_batch`: yields every
record currently on the FIFO, in arrival order, leaving it empty.
Never blocks. -/
def Channel.try_iter (ch : Channel) : List GodotSignal × Channel :=
  (ch.queue, { ch with queue := [] })

/-- `variant_to_signal_argument` (signals.rs lines 143-174): translate
one engine variant into a self-contained `GodotSignalArgument`. -/
def variant_to_signal_argument (variant : Variant) : GodotSignalArgument :=
  let type_name :=
    (match variant.get_type with
      | VariantType.NIL => "Nil"
      | VariantType.BOOL => "Bool"
      | VariantType.INT => "Int"
      | VariantType.FLOAT => "Float"
      | VariantType.STRING => "String"
      | VariantType.VECTOR2 => "Vector2"
      | VariantType.VECTOR3 => "Vector3"
      | VariantType.OBJECT => "Object"
      | _ => "Unknown")
  let value := variant.stringify
  let instance_id :=
    if variant.get_type = VariantType.OBJECT then variant.tryToObjectId
    else none
  { type_name := type_name, value := value, instance_id := instance_id }

/-- Body of the "TRULY UNIVERSAL" closure built inside
`connect_godot_signal` (signals.rs lines 113-134).  The closure
captures the node's instance id, an owned copy of the signal name, the
optional target and a clone of the sender; on each invocation it
translates every positional argument in order, re-materializes the
origin handle from the captured id, fills in the target (defaulting to
the origin node), sends the assembled record on the channel discarding
the send result, and returns `Ok(Variant::nil())` to the engine. -/
def universal_signal_handler (node_id : InstanceId) (signal_name_copy : String)
    (signal_target : Option GodotSignalTarget) (args : List Variant)
    (ch : Channel) : Channel × Except Unit Variant :=
  let arguments := args.map variant_to_signal_argument
  let origin_handle := GodotNodeHandle.from_instance_id node_id
  let target_handle :=
    signal_target.getD (GodotSignalTarget.Node origin_handle)
  let ch' := (ch.send { name := signal_name_copy, origin := origin_handle,
                        target := target_handle,
                        arguments := arguments }).1
  (ch', Except.ok Variant.nil)

/-- A live engine node, as far as the bridge observes it. -/
structure Node where
  instance_id : InstanceId
  deriving DecidableEq, Repr

/-- One callback installed in the engine's signal table by
`connect_godot_signal`: the data the closure captured.  Invoking the
callback on an argument list is `universal_signal_handler` applied to
these captures. -/
structure InstalledCallback where
  node_id : InstanceId
  signal_name : String
  signal_target : Option GodotSignalTarget
  deriving DecidableEq, Repr

/-- The engine side of the world: which nodes are live, and the
engine-owned signal table of installed callbacks. -/
structure EngineState where
  liveNodes : List Node
  connections : List InstalledCallback
  deriving DecidableEq, Repr

/-- Modelled from the spec: `GodotNodeHandle::get::<Node>` is in
`crate::interop`, not part of the sources; the spec says "resolving to
a live node is fallible" and the connector must "fail fast (propagated
engine error) if it cannot be resolved". -/
def GodotNodeHandle.get (h : GodotNodeHandle) (es : EngineState) :
    Except String Node :=
  match es.liveNodes.find? (fun n => n.instance_id == h.instance_id) with
  | some n => Except.ok n
  | none => Except.error "failed to resolve node handle"

/-- The state the connector touches: the engine state plus the channel
whose sender endpoint is cloned into each installed callback. -/
structure BridgeState where
  engine : EngineState
  channel : Channel
  deriving DecidableEq, Repr

/-- `connect_godot_signal` (signals.rs lines 101-141): resolve the
handle to a live node (propagating the engine error on failure),
capture the node's instance id, an owned copy of the signal name, the
target and the sender, and attach the universal callback to the named
signal in the engine's signal table.  The channel is only cloned into
the callback, never sent on. -/
def connect_godot_signal (node : GodotNodeHandle) (signal_name : String)
    (signal_target : Option GodotSignalTarget) (st : BridgeState) :
    Except String BridgeState :=
  match node.get st.engine with
  | Except.error e => Except.error e
  | Except.ok node_resolved =>
    let node_clone := node_resolved
    let signal_name_copy := signal_name
    let node_id := node_clone.instance_id
    Except.ok
      { st with engine :=
          { st.engine with connections := st.engine.connections ++
              [{ node_id := node_id, signal_name := signal_name_copy,
                 signal_target := signal_target }] } }

/-- `GodotSignals::connect` (signals.rs lines 70-72): clone the sender
out of the resource slot and call `connect_godot_signal` with no
target. -/
def GodotSignals.connect (st : BridgeState) (node : GodotNodeHandle)
    (signal_name : String) : Except String BridgeState :=
  connect_godot_signal node signal_name none st

/-- `GodotSignals::connect_to_target` (signals.rs lines 79-91): clone
the sender out of the resource slot and call `connect_godot_signal`
with the cloned explicit target. -/
def GodotSignals.connect_to_target (st : BridgeState)
    (node : GodotNodeHandle) (signal_name : String)
    (target : GodotSignalTarget) : Except String BridgeState :=
  connect_godot_signal node signal_name (some target) st

/-- Bevy schedules the bridge uses. -/
inductive Schedule where
  | First
  deriving DecidableEq, Repr

/-- One `add_systems` registration: the schedule it was added to, the
system, and the systems it is explicitly ordered before. -/
structure ScheduledSystem where
  schedule : Schedule
  system : String
  before : List String
  deriving DecidableEq, Repr

/-- The slice of a Bevy `App` the plugin's `build` touches: registered
systems, registered event types, and the non-send resource slots. -/
structure App where
  systems : List ScheduledSystem
  events : List String
  nonSendResources : List String
  deriving DecidableEq, Repr

/-- `GodotSignalsPlugin::build` (signals.rs lines 22-27):
`app.add_systems(First, write_godot_signal_events.before(event_update_system))
.add_event::<GodotSignal>()`.  Nothing else: in particular no resource
is inserted here. -/
def GodotSignalsPlugin.build (app : App) : App :=
  let drainer : ScheduledSystem :=
    { schedule := Schedule.First, system := "write_godot_signal_events",
      before := ["event_update_system"] }
  let app := { app with systems := app.systems ++ [drainer] }
  { app with events := app.events ++ ["GodotSignal"] }

/-- `write_godot_signal_events` (signals.rs lines 94-99): the drainer
system.  `event_writer.write_batch(events.0.try_iter())` drains every
record currently on the channel without blocking and appends them, in
arrival order, to the current frame's ECS events. -/
def write_godot_signal_events (events : Channel)
    (frameEvents : List GodotSignal) : Channel × List GodotSignal :=
  let drained := events.try_iter
  (drained.2, frameEvents ++ drained.1)

/-- An empty Bevy app, used as a concrete input. -/
def emptyApp : App :=
  { systems := [], events := [], nonSendResources := [] }

/-- C1: for every engine variant `v`, `variant_to_signal_argument v`
produces a `GodotSignalArgument` whose `type_name` is exactly the table
entry for `v`'s runtime kind (Nil→"Nil", Bool→"Bool", Int→"Int",
Float→"Float", String→"String", Vector2→"Vector2", Vector3→"Vector3",
Object→"Object", any other kind→"Unknown"), and whose `value` field is
the engine's canonical stringification of `v`, stored verbatim, for
every kind including Unknown. -/
theorem C1_variant_translation_table (v : Variant) :
    (variant_to_signal_argument v).type_name =
      (match v.get_type with
        | VariantType.NIL => "Nil"
        | VariantType.BOOL => "Bool"
        | VariantType.INT => "Int"
        | VariantType.FLOAT => "Float"
        | VariantType.STRING => "String"
        | VariantType.VECTOR2 => "Vector2"
        | VariantType.VECTOR3 => "Vector3"
        | VariantType.OBJECT => "Object"
        | _ => "Unknown") ∧
    (variant_to_signal_argument v).value = v.stringify := by
  refine ⟨?_, rfl⟩
  cases v with
  | mk t s o => cases t <;> rfl

/-- Inversion of a successful `connect_godot_signal`: the handle
resolved to a live node carrying the handle's instance id, and the new
state appends exactly one callback, capturing that id, the signal name
and the target, to the engine's signal table. -/
theorem connect_godot_signal_ok (node : GodotNodeHandle) (nm : String)
    (tgt : Option GodotSignalTarget) (st st' : BridgeState)
    (hc : connect_godot_signal node nm tgt st = Except.ok st') :
    ∃ n : Node, node.get st.engine = Except.ok n ∧
      n.instance_id = node.instance_id ∧
      st' = { st with engine := { st.engine with
        connections := st.engine.connections ++
          [{ node_id := n.instance_id, signal_name := nm,
             signal_target := tgt }] } } := by
  unfold connect_godot_signal at hc
  revert hc
  cases hget : node.get st.engine with
  | error e =>
      intro hc
      exact absurd hc (by simp)
  | ok n =>
      intro hc
      injection hc with hc
      refine ⟨n, rfl, ?_, hc.symm⟩
      unfold GodotNodeHandle.get at hget
      revert hget
      cases hfind : st.engine.liveNodes.find?
          (fun m => m.instance_id == node.instance_id) with
      | none =>
          intro hget
          exact absurd hget (by simp)
      | some m =>
          intro hget
          injection hget with hget
          subst hget
          have hbeq := List.find?_some hfind
          exact eq_of_beq hbeq

/-- C2: every record emitted by an installed callback has `target`
equal to the target passed at connect time when one was provided, and
otherwise `Node(origin)`; in particular a connection with target
`Entity e` yields records whose target is `Entity e` on every
emission. -/
theorem C2_target_routing (node_id : InstanceId) (nm : String)
    (tgt : Option GodotSignalTarget) (args : List Variant) (ch : Channel)
    (h : ch.receiverDropped = false) :
    ∃ r : GodotSignal,
      (universal_signal_handler node_id nm tgt args ch).1.queue =
        ch.queue ++ [r] ∧
      r.origin = GodotNodeHandle.from_instance_id node_id ∧
      r.target = tgt.getD (GodotSignalTarget.Node r.origin) ∧
      (∀ t, tgt = some t → r.target = t) ∧
      (tgt = none → r.target = GodotSignalTarget.Node r.origin) := by
  refine ⟨{ name := nm,
            origin := GodotNodeHandle.from_instance_id node_id,
            target := tgt.getD (GodotSignalTarget.Node
              (GodotNodeHandle.from_instance_id node_id)),
            arguments := args.map variant_to_signal_argument },
          ?_, rfl, rfl, ?_, ?_⟩
  · simp [universal_signal_handler, Channel.send, h]
  · intro t ht
    simp [ht]
  · intro ht
    simp [ht]

/-- C2 witness: a connection made with target `Entity 7` on node 42,
emitted once with no arguments, produces one record whose target is
`Entity 7`. -/
theorem C2_target_routing_witness :
    ∃ r : GodotSignal,
      (universal_signal_handler 42 "hit"
          (some (GodotSignalTarget.Entity 7)) []
          { queue := [], receiverDropped := false }).1.queue =
        ([] : List GodotSignal) ++ [r] ∧
      r.origin = GodotNodeHandle.from_instance_id 42 ∧
      r.target = GodotSignalTarget.Entity 7 := by
  obtain ⟨r, hq, ho, ht, hsome, hnone⟩ :=
    C2_target_routing 42 "hit" (some (GodotSignalTarget.Entity 7)) []
      { queue := [], receiverDropped := false } rfl
  exact ⟨r, hq, ho, hsome (GodotSignalTarget.Entity 7) rfl⟩

/-- C3: a successful connect installs a callback capturing exactly the
instance id of the node it was installed on, and every emission of
that callback builds its record's `origin` as a `NodeHandle`
re-materialized from that captured id, so the record's origin instance
id equals the id of the node passed at connect. -/
theorem C3_origin_identity (node : GodotNodeHandle) (nm : String)
    (tgt : Option GodotSignalTarget) (st st' : BridgeState)
    (hc : connect_godot_signal node nm tgt st = Except.ok st') :
    ∃ c : InstalledCallback,
      st'.engine.connections = st.engine.connections ++ [c] ∧
      c.node_id = node.instance_id ∧
      ∀ args ch, ch.receiverDropped = false →
        ∃ r : GodotSignal,
          (universal_signal_handler c.node_id c.signal_name c.signal_target
              args ch).1.queue = ch.queue ++ [r] ∧
          r.origin = GodotNodeHandle.from_instance_id c.node_id ∧
          r.origin.instance_id = node.instance_id := by
  obtain ⟨n, hget, hid, hst'⟩ := connect_godot_signal_ok node nm tgt st st' hc
  subst hst'
  refine ⟨{ node_id := n.instance_id, signal_name := nm,
            signal_target := tgt }, rfl, hid, ?_⟩
  intro args ch hch
  refine ⟨{ name := nm,
            origin := GodotNodeHandle.from_instance_id n.instance_id,
            target := tgt.getD (GodotSignalTarget.Node
              (GodotNodeHandle.from_instance_id n.instance_id)),
            arguments := args.map variant_to_signal_argument },
          ?_, rfl, hid⟩
  simp [universal_signal_handler, Channel.send, hch]

/-- Concrete fixture: the handle of node 42. -/
def c3Node : GodotNodeHandle := { instance_id := 42 }

/-- Concrete fixture: node 42 is live, no callbacks installed yet,
channel empty with a live receiver. -/
def c3State : BridgeState :=
  { engine := { liveNodes := [{ instance_id := 42 }], connections := [] },
    channel := { queue := [], receiverDropped := false } }

/-- Concrete fixture: the state after connecting `"ready"` on node 42
with no target. -/
def c3State' : BridgeState :=
  { engine := { liveNodes := [{ instance_id := 42 }],
                connections := [{ node_id := 42, signal_name := "ready",
                                  signal_target := none }] },
    channel := { queue := [], receiverDropped := false } }

/-- C3 witness: connecting `"ready"` on live node 42 and emitting once
with no arguments yields a record whose origin instance id is 42. -/
theorem C3_origin_identity_witness :
    ∃ r : GodotSignal,
      (universal_signal_handler 42 "ready" none []
        { queue := [], receiverDropped := false }).1.queue =
        ([] : List GodotSignal) ++ [r] ∧
      r.origin.instance_id = 42 := by
  obtain ⟨c, hconn, hid, hinv⟩ :=
    C3_origin_identity c3Node "ready" none c3State c3State' rfl
  have hcval : c = { node_id := 42, signal_name := "ready",
                     signal_target := none } := by
    have := hconn
    simp [c3State, c3State'] at this
    exact this.symm
  obtain ⟨r, hq, ho, hoid⟩ :=
    hinv [] { queue := [], receiverDropped := false } rfl
  rw [hcval] at hq
  exact ⟨r, hq, hoid⟩

/-- C4: a translated argument carries an `instance_id` only when its
`type_name` is `"Object"`; extraction is attempted exactly when the
variant's kind is `Object`; and a failed downcast leaves `instance_id`
absent while `type_name` stays `"Object"`. -/
theorem C4_instance_id_object_only (v : Variant) :
    ((variant_to_signal_argument v).instance_id.isSome = true →
      (variant_to_signal_argument v).type_name = "Object") ∧
    (v.get_type = VariantType.OBJECT →
      (variant_to_signal_argument v).instance_id = v.tryToObjectId) ∧
    (v.get_type ≠ VariantType.OBJECT →
      (variant_to_signal_argument v).instance_id = none) ∧
    (v.get_type = VariantType.OBJECT → v.tryToObjectId = none →
      (variant_to_signal_argument v).instance_id = none ∧
      (variant_to_signal_argument v).type_name = "Object") := by
  cases v with
  | mk t s o => cases t <;> simp [variant_to_signal_argument]

/-- Concrete fixture: a variant of kind Object whose downcast to an
object reference failed (e.g. a freed object). -/
def freedObjectVariant : Variant :=
  { get_type := VariantType.OBJECT, stringify := "<Freed Object>",
    tryToObjectId := none }

/-- C4 witness: on an Object-kind variant with a failed downcast, the
translation yields an absent `instance_id` and `type_name`
`"Object"`. -/
theorem C4_instance_id_object_only_witness :
    (variant_to_signal_argument freedObjectVariant).instance_id = none ∧
    (variant_to_signal_argument freedObjectVariant).type_name = "Object" :=
  (C4_instance_id_object_only freedObjectVariant).2.2.2 rfl rfl

/-- C5: each invocation of an installed callback with argument list
`args` submits exactly one record to the channel; its `arguments`
field is `args` translated element-wise in order (hence of the same
length, and empty when `args` is empty), its `name` is the signal name
captured at connect, and the callback returns `Ok(Variant::nil())` to
the engine. -/
theorem C5_record_per_invocation (node_id : InstanceId) (nm : String)
    (tgt : Option GodotSignalTarget) (args : List Variant) (ch : Channel)
    (h : ch.receiverDropped = false) :
    ∃ r : GodotSignal,
      (universal_signal_handler node_id nm tgt args ch).1.queue =
        ch.queue ++ [r] ∧
      r.name = nm ∧
      r.arguments = args.map variant_to_signal_argument ∧
      r.arguments.length = args.length ∧
      (args = [] → r.arguments = []) ∧
      (universal_signal_handler node_id nm tgt args ch).2 =
        Except.ok Variant.nil := by
  refine ⟨{ name := nm,
            origin := GodotNodeHandle.from_instance_id node_id,
            target := tgt.getD (GodotSignalTarget.Node
              (GodotNodeHandle.from_instance_id node_id)),
            arguments := args.map variant_to_signal_argument },
          ?_, rfl, rfl, by simp, ?_, rfl⟩
  · simp [universal_signal_handler, Channel.send, h]
  · intro ha
    simp [ha]

/-- Concrete fixture: a Bool variant as the engine would present it. -/
def boolVariant : Variant :=
  { get_type := VariantType.BOOL, stringify := "true", tryToObjectId := none }

/-- Concrete fixture: an Int variant as the engine would present it. -/
def intVariant : Variant :=
  { get_type := VariantType.INT, stringify := "7", tryToObjectId := none }

/-- C5 witness: invoking a callback for signal `"hit"` with a Bool and
an Int argument on a live channel submits one record named `"hit"`
whose two arguments are the element-wise translations. -/
theorem C5_record_per_invocation_witness :
    ∃ r : GodotSignal,
      (universal_signal_handler 42 "hit" none [boolVariant, intVariant]
        { queue := [], receiverDropped := false }).1.queue =
        ([] : List GodotSignal) ++ [r] ∧
      r.name = "hit" ∧
      r.arguments =
        [boolVariant, intVariant].map variant_to_signal_argument ∧
      r.arguments.length = 2 := by
  obtain ⟨r, hq, hn, ha, hl, he, hnil⟩ :=
    C5_record_per_invocation 42 "hit" none [boolVariant, intVariant]
      { queue := [], receiverDropped := false } rfl
  refine ⟨r, hq, hn, ha, ?_⟩
  rw [hl]
  rfl

/-- C6 counterexample: the claim says plugin install registers the
event, inserts both the sender and the receiver resources, and
schedules the drainer before event rotation.  On the concrete empty
app, `GodotSignalsPlugin.build` registers the event and schedules the
drainer but inserts neither resource, so the conjunction is false. -/
theorem C6_plugin_build_counterexample :
    ¬ ("GodotSignal" ∈ (GodotSignalsPlugin.build emptyApp).events ∧
       "GodotSignalSender" ∈
         (GodotSignalsPlugin.build emptyApp).nonSendResources ∧
       "GodotSignalReader" ∈
         (GodotSignalsPlugin.build emptyApp).nonSendResources ∧
       ({ schedule := Schedule.First, system := "write_godot_signal_events",
          before := ["event_update_system"] } : ScheduledSystem) ∈
         (GodotSignalsPlugin.build emptyApp).systems) := by
  intro hclaim
  have hsender := hclaim.2.1
  simp [GodotSignalsPlugin.build, emptyApp] at hsender

/-- C6 amended: when the plugin is added to the ECS app, it registers
the `GodotSignal` event type and schedules the drainer system in the
`First` schedule ordered before the event-rotation step; it does not
insert the sender or receiver resources (those slots are provided
elsewhere, outside this plugin's `build`). -/
theorem C6_plugin_build_amended (app : App) :
    (GodotSignalsPlugin.build app).events = app.events ++ ["GodotSignal"] ∧
    (GodotSignalsPlugin.build app).systems = app.systems ++
      [{ schedule := Schedule.First, system := "write_godot_signal_events",
         before := ["event_update_system"] }] ∧
    (GodotSignalsPlugin.build app).nonSendResources =
      app.nonSendResources :=
  ⟨rfl, rfl, rfl⟩

/-- C7: when connect is called with a node handle that does not
resolve to a live engine node, the engine's resolution error is
propagated to the caller and no callback is installed: connect never
returns a success state. -/
theorem C7_connect_resolution_failure (node : GodotNodeHandle)
    (nm : String) (tgt : Option GodotSignalTarget) (st : BridgeState)
    (e : String) (h : node.get st.engine = Except.error e) :
    connect_godot_signal node nm tgt st = Except.error e ∧
    ∀ st', connect_godot_signal node nm tgt st ≠ Except.ok st' := by
  have hmain : connect_godot_signal node nm tgt st = Except.error e := by
    unfold connect_godot_signal
    rw [h]
  refine ⟨hmain, fun st' hok => ?_⟩
  rw [hmain] at hok
  exact absurd hok (by simp)

/-- Concrete fixture: a handle to instance id 99, which is not live in
`emptyBridge`. -/
def deadNode : GodotNodeHandle := { instance_id := 99 }

/-- Concrete fixture: a bridge state with no live nodes, no installed
callbacks, and an empty live channel. -/
def emptyBridge : BridgeState :=
  { engine := { liveNodes := [], connections := [] },
    channel := { queue := [], receiverDropped := false } }

/-- C7 witness: connecting `"ready"` on unresolvable node 99 in the
empty bridge propagates the resolution error. -/
theorem C7_connect_resolution_failure_witness :
    connect_godot_signal deadNode "ready" none emptyBridge =
      Except.error "failed to resolve node handle" :=
  (C7_connect_resolution_failure deadNode "ready" none emptyBridge
    "failed to resolve node handle" rfl).1

/-- C8: once the receiver end of the channel has been dropped, every
callback invocation's send fails silently: the channel is left
unchanged, the send result is failure (and is discarded by the
callback), no panic or error is surfaced to the engine, and the
callback still returns `Ok(Variant::nil())`. -/
theorem C8_send_fails_silently (node_id : InstanceId) (nm : String)
    (tgt : Option GodotSignalTarget) (args : List Variant) (ch : Channel)
    (h : ch.receiverDropped = true) :
    (universal_signal_handler node_id nm tgt args ch).1 = ch ∧
    (∀ r, ch.send r = (ch, false)) ∧
    (universal_signal_handler node_id nm tgt args ch).2 =
      Except.ok Variant.nil := by
  refine ⟨?_, ?_, rfl⟩
  · simp [universal_signal_handler, Channel.send, h]
  · intro r
    simp [Channel.send, h]

/-- C8 witness: with the receiver dropped, invoking a callback with
one Bool argument leaves the channel unchanged and still returns
`Ok(Variant::nil())`. -/
theorem C8_send_fails_silently_witness :
    (universal_signal_handler 42 "tick" none [boolVariant]
      { queue := [], receiverDropped := true }).1 =
      { queue := [], receiverDropped := true } ∧
    (universal_signal_handler 42 "tick" none [boolVariant]
      { queue := [], receiverDropped := true }).2 =
      Except.ok Variant.nil := by
  obtain ⟨h1, h2, h3⟩ := C8_send_fails_silently 42 "tick" none [boolVariant]
    { queue := [], receiverDropped := true } rfl
  exact ⟨h1, h3⟩

/-- C9: each run of the drainer publishes every record currently on
the channel as ECS events for the current frame, appended after the
frame's existing events in FIFO arrival order (so an empty queue
contributes nothing), and leaves the channel empty with its
receiver-side state untouched. -/
theorem C9_drainer_drains_in_order (ch : Channel)
    (frameEvents : List GodotSignal) :
    (write_godot_signal_events ch frameEvents).2 =
      frameEvents ++ ch.queue ∧
    (write_godot_signal_events ch frameEvents).1.queue = [] ∧
    (write_godot_signal_events ch frameEvents).1.receiverDropped =
      ch.receiverDropped :=
  ⟨rfl, rfl, rfl⟩

/-- C10: `connect` and `connect_to_target` leave the channel contents
unchanged: no record is sent at connect time, the sender is only
cloned into the callback, so records appear on the channel only from
subsequent emissions. -/
theorem C10_connect_leaves_channel_unchanged (st : BridgeState)
    (node : GodotNodeHandle) (nm : String) (target : GodotSignalTarget) :
    (∀ st', GodotSignals.connect st node nm = Except.ok st' →
      st'.channel = st.channel) ∧
    (∀ st', GodotSignals.connect_to_target st node nm target =
        Except.ok st' → st'.channel = st.channel) := by
  constructor
  · intro st' h
    obtain ⟨n, hget, hid, hst'⟩ :=
      connect_godot_signal_ok node nm none st st' h
    subst hst'
    rfl
  · intro st' h
    obtain ⟨n, hget, hid, hst'⟩ :=
      connect_godot_signal_ok node nm (some target) st st' h
    subst hst'
    rfl

/-- C10 witness: connecting `"ready"` on live node 42 succeeds with
`c3State'`, whose channel equals the channel before the connect. -/
theorem C10_connect_leaves_channel_unchanged_witness :
    c3State'.channel = c3State.channel :=
  (C10_connect_leaves_channel_unchanged c3State c3Node "ready"
    (GodotSignalTarget.Entity 7)).1 c3State' rfl

end GodotBevySignals
